import Mathlib

/-!
Verification of `application_sandbox/conditional_rendering/main.cpp`
(vulkan_test_applications).

The sample records, once per swapchain image ("frame slot"), a command buffer
that: (1) issues a host-to-compute buffer barrier on that slot's dispatch-data
region, (2) dispatches a compute shader inside a conditional-rendering region
over that slot's condition region, (3) issues a compute-to-fragment barrier on
the dispatch-data region, and (4) runs a render pass with two
conditional-rendering branches (non-inverted: clear to cyan and draw the cube
with 2 instances; inverted: clear to magenta and draw one cube).  The host side
(`Update` / `Render`) animates the model, recomputes the condition flag from a
32-bit frame counter, resets the scratch value to 0 and uploads the per-frame
buffer copies before resubmitting the recorded command buffer.

The embedding below models the recorded command stream as a list of commands,
the GPU consumption of conditional-rendering regions as an executable
interpreter, and the host side as a step machine over per-frame buffer copies.
-/

namespace CondRendering

/-- The four mutable buffers created by `InitializeApplicationData`
(`camera_data_`, `model_data_`, `conditional_data_`, `dispatch_data_`). -/
inductive BufferId
  | camera
  | model
  | conditional
  | dispatch
deriving DecidableEq, Repr

/-- Pipeline stages appearing in the sample's two `vkCmdPipelineBarrier`
calls. -/
inductive Stage
  | host
  | computeShader
  | fragmentShader
deriving DecidableEq, Repr

/-- Access-mask bits appearing in the sample's buffer memory barriers. -/
inductive Access
  | hostWrite
  | shaderRead
  | shaderWrite
deriving DecidableEq, Repr

/-- Pipeline bind points used by `vkCmdBindPipeline` /
`vkCmdBindDescriptorSets`. -/
inductive BindPoint
  | graphics
  | compute
deriving DecidableEq, Repr

/-- A reference to a region of one of the buffers: a
`VkDescriptorBufferInfo` or a `VkBufferViewCreateInfo` (buffer, offset,
range). -/
structure BufferRef where
  buffer : BufferId
  offset : Nat
  range : Nat
deriving DecidableEq, Repr

/-- `VkConditionalRenderingBeginInfoEXT`: the buffer region holding the
32-bit condition value, and whether `VK_CONDITIONAL_RENDERING_INVERTED_BIT_EXT`
is set in `flags`. -/
structure CondBeginInfo where
  buffer : BufferId
  offset : Nat
  inverted : Bool
deriving DecidableEq, Repr

/-- `VkBufferMemoryBarrier` (the queue-family fields are both
`VK_QUEUE_FAMILY_IGNORED` in the sample and are omitted). -/
structure BufMemBarrier where
  srcAccess : List Access
  dstAccess : List Access
  buffer : BufferId
  offset : Nat
  size : Nat
deriving DecidableEq, Repr

/-- A `VkClearColorValue`.  The sample only uses the exact float values
0.0f and 1.0f, so the components are modelled as integers. -/
structure ClearColor where
  r : Int
  g : Int
  b : Int
  a : Int
deriving DecidableEq, Repr

/-- The commands recorded into the per-slot command buffer by
`InitializeFrameData`. -/
inductive Cmd
  | pipelineBarrier (srcStage dstStage : Stage) (barrier : BufMemBarrier)
  | beginConditional (info : CondBeginInfo)
  | endConditional
  | bindPipeline (bp : BindPoint)
  | bindDescriptorSets (bp : BindPoint) (refs : List BufferRef)
  | dispatch (x y z : Nat)
  | beginRenderPass
  | endRenderPass
  | clearAttachments (color : ClearColor)
  | draw (instanceCount : Nat)
deriving DecidableEq, Repr

/-- Modelled from the spec: `vulkan::BufferFrameData` (declared in
`vulkan_helpers/buffer_frame_data.h`, which is not under `src/`) allocates one
copy of its data per swapchain image inside a single buffer;
`get_offset_for_frame(i)` is slot `i`'s byte offset (`i` times the aligned
per-copy size), `size()` the raw data size and `aligned_data_size()` the
aligned per-copy size.  A `Layout` collects these sizes for the four buffers
of the sample. -/
structure Layout where
  cameraSize : Nat
  modelSize : Nat
  conditionalSize : Nat
  dispatchSize : Nat
  cameraAligned : Nat
  modelAligned : Nat
  conditionalAligned : Nat
  dispatchAligned : Nat
deriving DecidableEq, Repr

/-- `camera_data_->get_offset_for_frame(i)`. -/
def Layout.cameraOffset (L : Layout) (i : Nat) : Nat := i * L.cameraAligned

/-- `model_data_->get_offset_for_frame(i)`. -/
def Layout.modelOffset (L : Layout) (i : Nat) : Nat := i * L.modelAligned

/-- `conditional_data_->get_offset_for_frame(i)`. -/
def Layout.conditionalOffset (L : Layout) (i : Nat) : Nat :=
  i * L.conditionalAligned

/-- `dispatch_data_->get_offset_for_frame(i)`. -/
def Layout.dispatchOffset (L : Layout) (i : Nat) : Nat := i * L.dispatchAligned

/-- `dispatch_data_buffer_view_create_info` (`InitializeFrameData`,
main.cpp:218-226): texel-buffer view of slot `i`'s dispatch-data region,
offset `get_offset_for_frame(frame_index)`, range `aligned_data_size()`. -/
def dispatchDataBufferView (L : Layout) (i : Nat) : BufferRef :=
  ⟨.dispatch, L.dispatchOffset i, L.dispatchAligned⟩

/-- `buffer_infos` (`InitializeFrameData`, main.cpp:243-259): descriptor
buffer regions of slot `i` for the camera, model and dispatch buffers, each
with offset `get_offset_for_frame(frame_index)` and range `size()`. -/
def bufferInfos (L : Layout) (i : Nat) : List BufferRef :=
  [⟨.camera, L.cameraOffset i, L.cameraSize⟩,
   ⟨.model, L.modelOffset i, L.modelSize⟩,
   ⟨.dispatch, L.dispatchOffset i, L.dispatchSize⟩]

/-- The regions referenced by the cube (graphics) descriptor set of slot `i`:
bindings 0 and 1 are `buffer_infos[0..1]`, binding 2 is the texel-buffer
view. -/
def cubeDescriptorRefs (L : Layout) (i : Nat) : List BufferRef :=
  [⟨.camera, L.cameraOffset i, L.cameraSize⟩,
   ⟨.model, L.modelOffset i, L.modelSize⟩,
   dispatchDataBufferView L i]

/-- The region referenced by the compute descriptor set of slot `i`
(`buffer_infos[2]`, the storage-buffer view of the dispatch data). -/
def computeDescriptorRefs (L : Layout) (i : Nat) : List BufferRef :=
  [⟨.dispatch, L.dispatchOffset i, L.dispatchSize⟩]

/-- `conditional_begin1` (main.cpp:346-352): condition region of slot `i`
in the conditional buffer, `flags = 0` (not inverted). -/
def conditionalBegin1 (L : Layout) (i : Nat) : CondBeginInfo :=
  ⟨.conditional, L.conditionalOffset i, false⟩

/-- `conditional_begin2` (main.cpp:355-356): a copy of `conditional_begin1`
with `flags = VK_CONDITIONAL_RENDERING_INVERTED_BIT_EXT`. -/
def conditionalBegin2 (L : Layout) (i : Nat) : CondBeginInfo :=
  { conditionalBegin1 L i with inverted := true }

/-- `to_use_in_comp` (main.cpp:358-367): host-write to shader-read/write
barrier over slot `i`'s dispatch-data region. -/
def toUseInComp (L : Layout) (i : Nat) : BufMemBarrier :=
  ⟨[.hostWrite], [.shaderRead, .shaderWrite], .dispatch,
   L.dispatchOffset i, L.dispatchAligned⟩

/-- `to_use_in_frag` (main.cpp:368-377): shader-read/write to shader-read
barrier over slot `i`'s dispatch-data region. -/
def toUseInFrag (L : Layout) (i : Nat) : BufMemBarrier :=
  ⟨[.shaderRead, .shaderWrite], [.shaderRead], .dispatch,
   L.dispatchOffset i, L.dispatchAligned⟩

/-- `clear_color` (main.cpp:409): cyan `{0.0f, 1.0f, 1.0f, 1.0f}`. -/
def cyanClear : ClearColor := ⟨0, 1, 1, 1⟩

/-- `clear_color2` (main.cpp:432): magenta `{1.0f, 0.0f, 1.0f, 1.0f}`. -/
def magentaClear : ClearColor := ⟨1, 0, 1, 1⟩

/-- The command stream recorded into slot `i`'s command buffer by
`InitializeFrameData` (main.cpp:328-441), in recording order.  `cube_.Draw`
and `cube_.DrawInstanced(2)` (from `vulkan_helpers/vulkan_model.h`, not under
`src/`) are modelled from the spec as indexed draws of the cube model with 1
and 2 instances. -/
def recordedCommands (L : Layout) (i : Nat) : List Cmd :=
  [.pipelineBarrier .host .computeShader (toUseInComp L i),
   .beginConditional (conditionalBegin1 L i),
   .bindPipeline .compute,
   .bindDescriptorSets .compute (computeDescriptorRefs L i),
   .dispatch 1 1 1,
   .endConditional,
   .pipelineBarrier .computeShader .fragmentShader (toUseInFrag L i),
   .beginRenderPass,
   .bindPipeline .graphics,
   .bindDescriptorSets .graphics (cubeDescriptorRefs L i),
   .beginConditional (conditionalBegin1 L i),
   .clearAttachments cyanClear,
   .draw 2,
   .endConditional,
   .beginConditional (conditionalBegin2 L i),
   .clearAttachments magentaClear,
   .draw 1,
   .endConditional,
   .endRenderPass]

/-- Observable GPU actions during execution of a command stream: the compute
dispatch (recording the dispatch-buffer offset it writes), an attachment
clear, and a draw (recording the scratch value the fragment shader reads
through the bound texel-buffer view). -/
inductive Event
  | dispatchEv (offset : Nat)
  | clearEv (color : ClearColor)
  | drawEv (instanceCount : Nat) (scratch : Int)
deriving DecidableEq, Repr

/-- GPU-side execution state.  `condMem` is the contents of the conditional
buffer (32-bit words, by byte offset) and `dispMem` the contents of the
dispatch buffer (one scratch value per region offset; float values are
modelled as integers — the program only distinguishes the exact value 0).
`activeCond` is the effective predicate of the currently open
conditional-rendering region, if any. -/
structure ExecState where
  condMem : Nat → Nat
  dispMem : Nat → Int
  activeCond : Option Bool
  boundComputeRegion : Nat
  boundTexelRegion : Nat
  events : List Event

/-- Whether functional commands currently execute: outside any
conditional-rendering region they always do; inside one they execute iff the
region's effective condition holds. -/
def condActive (s : ExecState) : Bool := s.activeCond.getD true

/-- Modelled from the spec: semantics of one recorded command, per the
glossary's description of the conditional-rendering feature ("draw/clear
commands ... skipped at hardware level based on the value stored in a
designated buffer region"; the extension likewise gates dispatches).
`vkCmdBeginConditionalRenderingEXT` samples the 32-bit value at the given
offset; the region is taken when the value is non-zero, XORed with the
inverted flag.  The compute shader (`cube.comp.spv`, not under `src/`) writes
a scratch value, abstracted as the parameter `gpuOut`, through the bound
storage-buffer region; a draw reads the scratch value through the bound
texel-buffer region. -/
def execCmd (gpuOut : Int) (s : ExecState) : Cmd → ExecState
  | .pipelineBarrier _ _ _ => s
  | .beginConditional info =>
      { s with activeCond := some (xor (s.condMem info.offset != 0) info.inverted) }
  | .endConditional => { s with activeCond := none }
  | .bindPipeline _ => s
  | .bindDescriptorSets bp refs =>
      match bp with
      | .compute =>
          { s with boundComputeRegion := (refs.getD 0 ⟨.dispatch, 0, 0⟩).offset }
      | .graphics =>
          { s with boundTexelRegion := (refs.getD 2 ⟨.dispatch, 0, 0⟩).offset }
  | .dispatch _ _ _ =>
      if condActive s then
        { s with
          dispMem := Function.update s.dispMem s.boundComputeRegion gpuOut,
          events := s.events ++ [.dispatchEv s.boundComputeRegion] }
      else s
  | .beginRenderPass => s
  | .endRenderPass => s
  | .clearAttachments c =>
      if condActive s then { s with events := s.events ++ [.clearEv c] } else s
  | .draw n =>
      if condActive s then
        { s with events := s.events ++ [.drawEv n (s.dispMem s.boundTexelRegion)] }
      else s

/-- Execution of a command stream. -/
def execCmds (gpuOut : Int) (s : ExecState) (cmds : List Cmd) : ExecState :=
  cmds.foldl (execCmd gpuOut) s

/-- Modelled from the spec: `vulkan::BufferFrameData<T>`
(`vulkan_helpers/buffer_frame_data.h`, not under `src/`) keeps one host copy
of the data and, per the glossary, "per-swapchain-image copies of mutable
buffers" on the device.  `hostData` is the host copy (`data()`), `gpu i` the
device copy of slot `i`, and `shadow i` the host value last uploaded to slot
`i` (used by the non-forced `UpdateBuffer` to skip the upload when the host
data is unchanged — hence the sample's forced update for the buffer "updated
by the GPU"). -/
structure BufferFrameData (α : Type) where
  numImages : Nat
  hostData : α
  shadow : Nat → Option α
  gpu : Nat → α

/-- A freshly created `BufferFrameData` with `N` per-image copies: nothing
uploaded yet, device copies holding `g0`. -/
def mkBufferFrameData {α : Type} (N : Nat) (h0 g0 : α) : BufferFrameData α :=
  ⟨N, h0, fun _ => none, fun _ => g0⟩

/-- Modelled from the spec: `BufferFrameData::UpdateBuffer(queue, i, 0,
force)` uploads the host data to slot `i`'s device copy; without `force` the
upload is skipped when the host data already matches what was last uploaded
to slot `i`. -/
def UpdateBuffer {α : Type} [DecidableEq α] (b : BufferFrameData α) (i : Nat)
    (force : Bool) : BufferFrameData α :=
  if force = true ∨ b.shadow i ≠ some b.hostData then
    { b with
      gpu := Function.update b.gpu i b.hostData,
      shadow := Function.update b.shadow i (some b.hostData) }
  else b

/-- The host-side state of `ConditionalRenderingSample`: the four
`BufferFrameData` members, the 32-bit frame counter
`frames_since_last_notify_`, and the command buffers recorded once per frame
slot.  The camera and model payloads (float 4x4 matrices) are abstracted as
integer tokens; the condition is the `uint32_t` `condition` field and the
dispatch payload the scratch `value` (floats modelled as integers, 0 being
exact). -/
structure AppState where
  camera : BufferFrameData Int
  model : BufferFrameData Int
  conditional : BufferFrameData Nat
  dispatch : BufferFrameData Int
  framesSinceLastNotify : Nat
  commandBuffers : Nat → List Cmd

/-- The state after `InitializeApplicationData` and the `InitializeFrameData`
calls (main.cpp:151-201, 328-441): four `BufferFrameData` objects with one
copy per swapchain image, camera/model host data set to their initial
matrices (abstract tokens `camInit`, `modInit`), scratch `value = 0.0`,
`condition = 1`, frame counter 0, and slot `i`'s command buffer holding
`recordedCommands L i`. -/
def initState (L : Layout) (N : Nat) (camInit modInit : Int) : AppState :=
  { camera := mkBufferFrameData N camInit 0
    model := mkBufferFrameData N modInit 0
    conditional := mkBufferFrameData N 1 0
    dispatch := mkBufferFrameData N 0 0
    framesSinceLastNotify := 0
    commandBuffers := fun i => recordedCommands L i }

/-- `ConditionalRenderingSample::Update` (main.cpp:444-456): increment the
32-bit frame counter, post-multiply the model transform by a rotation (the
float matrix product is abstracted as the function `rotate`), recompute the
condition flag as `(frames_since_last_notify_ % 120) < 60`, and reset the
scratch value to 0. -/
def updateStep (rotate : Int → Int) (s : AppState) : AppState :=
  let frames := (s.framesSinceLastNotify + 1) % 2 ^ 32
  { s with
    framesSinceLastNotify := frames
    model := { s.model with hostData := rotate s.model.hostData }
    conditional :=
      { s.conditional with hostData := if frames % 120 < 60 then 1 else 0 }
    dispatch := { s.dispatch with hostData := 0 } }

/-- A queue submission: which slot's command buffer was submitted, the
commands it contains, and the values sitting in that slot's condition and
dispatch regions when it was submitted. -/
structure Submission where
  slot : Nat
  cmds : List Cmd
  condVal : Nat
  dispVal : Int

/-- `ConditionalRenderingSample::Render` (main.cpp:458-484): upload slot
`frame_index`'s copies of the camera, model and condition buffers, upload the
scratch buffer with `forceUpdate = true`, then submit slot `frame_index`'s
recorded command buffer unchanged. -/
def renderStep (i : Nat) (s : AppState) : AppState × Submission :=
  let cam := UpdateBuffer s.camera i false
  let md := UpdateBuffer s.model i false
  let cond := UpdateBuffer s.conditional i false
  let disp := UpdateBuffer s.dispatch i true
  ({ s with camera := cam, model := md, conditional := cond, dispatch := disp },
   { slot := i
     cmds := s.commandBuffers i
     condVal := cond.gpu i
     dispVal := disp.gpu i })

/-- The compute shader writing a value into slot `i`'s scratch region on the
device (the only device write the recorded commands perform, cf. the compute
descriptor set).  This is what makes the sample's forced update necessary. -/
def gpuWriteStep (i : Nat) (v : Int) (s : AppState) : AppState :=
  { s with
    dispatch := { s.dispatch with gpu := Function.update s.dispatch.gpu i v } }

/-- The events the sample's main loop can interleave: an `Update` call (with
its abstracted rotation), a `Render` call for a frame slot, and a GPU-side
scratch write by a previously submitted dispatch. -/
inductive Action
  | update (rotate : Int → Int)
  | render (i : Nat)
  | gpuScratchWrite (i : Nat) (v : Int)

/-- One step of the main loop, accumulating the submission log. -/
def stepAction (p : AppState × List Submission) (a : Action) :
    AppState × List Submission :=
  match a with
  | .update rot => (updateStep rot p.1, p.2)
  | .render i =>
      let r := renderStep i p.1
      (r.1, p.2 ++ [r.2])
  | .gpuScratchWrite i v => (gpuWriteStep i v p.1, p.2)

/-- Run a sequence of main-loop steps. -/
def runSteps (p : AppState × List Submission) (acts : List Action) :
    AppState × List Submission :=
  acts.foldl stepAction p

/-- `n` successive `Update` calls, the `k`-th with rotation `rots k`. -/
def applyUpdates (rots : Nat → Int → Int) : Nat → AppState → AppState
  | 0, s => s
  | n + 1, s => updateStep (rots n) (applyUpdates rots n s)

/-- A concrete layout used by witnesses and counterexamples: raw data sizes
64/64/4/4 bytes, every aligned per-copy size 256 bytes. -/
def exLayout : Layout := ⟨64, 64, 4, 4, 256, 256, 256, 256⟩

/-- A concrete GPU execution state in which every condition word reads 1. -/
def exExecTrue : ExecState :=
  { condMem := fun _ => 1
    dispMem := fun _ => 0
    activeCond := none
    boundComputeRegion := 0
    boundTexelRegion := 0
    events := [] }

/-- A concrete GPU execution state in which every condition word reads 0. -/
def exExecFalse : ExecState := { exExecTrue with condMem := fun _ => 0 }


/-- shadow-vs-device consistency for a buffer the GPU never writes. -/
def BFDInv {α : Type} (b : BufferFrameData α) : Prop :=
  ∀ i v, b.shadow i = some v → b.gpu i = v

lemma bfdInv_mk {α : Type} (N : Nat) (h0 g0 : α) :
    BFDInv (mkBufferFrameData N h0 g0) := by
  intro i v h
  simp [mkBufferFrameData] at h

lemma updateBuffer_gpu_forced {α : Type} [DecidableEq α]
    (b : BufferFrameData α) (i : Nat) :
    (UpdateBuffer b i true).gpu i = b.hostData := by
  simp [UpdateBuffer, Function.update_same]

lemma updateBuffer_gpu_self {α : Type} [DecidableEq α]
    (b : BufferFrameData α) (i : Nat) (h : BFDInv b) :
    (UpdateBuffer b i false).gpu i = b.hostData := by
  by_cases hd : b.shadow i = some b.hostData
  · simp [UpdateBuffer, hd, Function.update_same]
    exact h i _ hd
  · simp [UpdateBuffer, hd, Function.update_same]

lemma updateBuffer_gpu_other {α : Type} [DecidableEq α]
    (b : BufferFrameData α) (i j : Nat) (f : Bool) (hj : j ≠ i) :
    (UpdateBuffer b i f).gpu j = b.gpu j := by
  unfold UpdateBuffer
  split
  · simp [Function.update_noteq hj]
  · rfl

lemma updateBuffer_hostData {α : Type} [DecidableEq α]
    (b : BufferFrameData α) (i : Nat) (f : Bool) :
    (UpdateBuffer b i f).hostData = b.hostData := by
  unfold UpdateBuffer; split <;> rfl

lemma bfdInv_updateBuffer {α : Type} [DecidableEq α]
    (b : BufferFrameData α) (i : Nat) (f : Bool) (h : BFDInv b) :
    BFDInv (UpdateBuffer b i f) := by
  unfold UpdateBuffer
  split
  · intro j v hj
    by_cases hji : j = i
    · subst hji
      simp [Function.update_same] at hj ⊢
      exact hj
    · simp [Function.update_noteq hji] at hj ⊢
      exact h j v hj
  · exact h

lemma bfdInv_setHost {α : Type} (b : BufferFrameData α) (x : α)
    (h : BFDInv b) : BFDInv { b with hostData := x } := h

/-- The three buffers the GPU never writes stay shadow-consistent. -/
def HostInv (s : AppState) : Prop :=
  BFDInv s.camera ∧ BFDInv s.model ∧ BFDInv s.conditional

lemma hostInv_initState (L : Layout) (N : Nat) (ci mi : Int) :
    HostInv (initState L N ci mi) :=
  ⟨bfdInv_mk _ _ _, bfdInv_mk _ _ _, bfdInv_mk _ _ _⟩

lemma hostInv_stepAction (p : AppState × List Submission) (a : Action)
    (h : HostInv p.1) : HostInv (stepAction p a).1 := by
  obtain ⟨hc, hm, hk⟩ := h
  cases a with
  | update rot =>
      exact ⟨hc, bfdInv_setHost _ _ hm, bfdInv_setHost _ _ hk⟩
  | render i =>
      exact ⟨bfdInv_updateBuffer _ _ _ hc, bfdInv_updateBuffer _ _ _ hm,
        bfdInv_updateBuffer _ _ _ hk⟩
  | gpuScratchWrite i v => exact ⟨hc, hm, hk⟩

lemma hostInv_runSteps (p : AppState × List Submission) (acts : List Action)
    (h : HostInv p.1) : HostInv (runSteps p acts).1 := by
  induction acts generalizing p with
  | nil => exact h
  | cons a as ih => exact ih _ (hostInv_stepAction _ _ h)


/-- Command buffers recorded once: every state keeps the recorded stream and
every logged submission carries it. -/
def CmdBufInv (L : Layout) (p : AppState × List Submission) : Prop :=
  (∀ i, p.1.commandBuffers i = recordedCommands L i) ∧
  ∀ sub ∈ p.2, sub.cmds = recordedCommands L sub.slot

lemma cmdBufInv_stepAction (L : Layout) (p : AppState × List Submission)
    (a : Action) (h : CmdBufInv L p) : CmdBufInv L (stepAction p a) := by
  obtain ⟨hcb, hlog⟩ := h
  cases a with
  | update rot => exact ⟨hcb, hlog⟩
  | render i =>
      refine ⟨hcb, ?_⟩
      intro sub hsub
      simp [stepAction, renderStep] at hsub
      rcases hsub with hsub | hsub
      · exact hlog sub hsub
      · subst hsub
        simpa using hcb i
  | gpuScratchWrite i v => exact ⟨hcb, hlog⟩

lemma cmdBufInv_runSteps (L : Layout) (p : AppState × List Submission)
    (acts : List Action) (h : CmdBufInv L p) :
    CmdBufInv L (runSteps p acts) := by
  induction acts generalizing p with
  | nil => exact h
  | cons a as ih => exact ih _ (cmdBufInv_stepAction _ _ _ h)

lemma applyUpdates_frames (rots : Nat → Int → Int) (n : Nat) (s : AppState)
    (h : s.framesSinceLastNotify = 0) :
    (applyUpdates rots n s).framesSinceLastNotify = n % 2 ^ 32 := by
  induction n with
  | zero => simpa using h
  | succ m ih =>
      simp [applyUpdates, updateStep, ih]

lemma applyUpdates_condition (rots : Nat → Int → Int) (n : Nat) (s : AppState)
    (h : s.framesSinceLastNotify = 0) :
    (applyUpdates rots (n + 1) s).conditional.hostData
      = if ((n + 1) % 2 ^ 32) % 120 < 60 then 1 else 0 := by
  simp [applyUpdates, updateStep, applyUpdates_frames rots n s h]



lemma exec_true (L : Layout) (i : Nat) (gpuOut : Int) (s0 : ExecState)
    (hc : s0.condMem (L.conditionalOffset i) ≠ 0) (he : s0.events = []) :
    (execCmds gpuOut s0 (recordedCommands L i)).events
      = [.dispatchEv (L.dispatchOffset i), .clearEv cyanClear, .drawEv 2 gpuOut] := by
  have hc' : (s0.condMem (L.conditionalOffset i) != 0) = true := by
    simpa using hc
  simp [execCmds, recordedCommands, execCmd, condActive,
    computeDescriptorRefs, cubeDescriptorRefs, dispatchDataBufferView,
    conditionalBegin1, conditionalBegin2, toUseInComp, toUseInFrag,
    he, hc', Function.update_same, List.getD]

lemma exec_false (L : Layout) (i : Nat) (gpuOut : Int) (s0 : ExecState)
    (hc : s0.condMem (L.conditionalOffset i) = 0) (he : s0.events = []) :
    (execCmds gpuOut s0 (recordedCommands L i)).events
      = [.clearEv magentaClear, .drawEv 1 (s0.dispMem (L.dispatchOffset i))]
    ∧ (execCmds gpuOut s0 (recordedCommands L i)).dispMem = s0.dispMem := by
  constructor <;>
  simp [execCmds, recordedCommands, execCmd, condActive,
    computeDescriptorRefs, cubeDescriptorRefs, dispatchDataBufferView,
    conditionalBegin1, conditionalBegin2, toUseInComp, toUseInFrag,
    he, hc, Function.update_same, List.getD]

lemma execCmd_condMem (gpuOut : Int) (s : ExecState) (c : Cmd) :
    (execCmd gpuOut s c).condMem = s.condMem := by
  cases c with
  | bindDescriptorSets bp refs => cases bp <;> simp [execCmd]
  | _ => simp [execCmd, condActive] <;> split <;> simp

lemma execCmds_condMem (gpuOut : Int) (cmds : List Cmd) (s : ExecState) :
    (execCmds gpuOut s cmds).condMem = s.condMem := by
  induction cmds generalizing s with
  | nil => rfl
  | cons c cs ih => simp [execCmds, List.foldl] at ih ⊢; rw [ih, execCmd_condMem]

/-- Whether a command is the compute dispatch. -/
def Cmd.isDispatchCmd : Cmd → Bool
  | .dispatch _ _ _ => true
  | _ => false

/-- Whether a command begins the render pass. -/
def Cmd.isBeginRenderPassCmd : Cmd → Bool
  | .beginRenderPass => true
  | _ => false

/-- Checker for C7: walking the command stream while tracking the open
conditional-rendering region, every draw and clear-attachments command must
occur inside a region whose begin info references the conditional buffer. -/
def drawClearGated : Option CondBeginInfo → List Cmd → Bool
  | _, [] => true
  | _, .beginConditional info :: rest => drawClearGated (some info) rest
  | _, .endConditional :: rest => drawClearGated none rest
  | active, .clearAttachments _ :: rest =>
      (match active with
       | some info => info.buffer == BufferId.conditional
       | none => false) && drawClearGated active rest
  | active, .draw _ :: rest =>
      (match active with
       | some info => info.buffer == BufferId.conditional
       | none => false) && drawClearGated active rest
  | active, _ :: rest => drawClearGated active rest

/-- C4: in the recorded command stream of every frame slot, a buffer memory
barrier from the compute-shader stage to the fragment-shader stage covering
exactly that frame's dispatch-data region (offset `get_offset_for_frame(i)`,
size `aligned_data_size()`) is recorded after the compute dispatch (the only
dispatch in the stream) and before the render pass (the only one) in which
the fragment shader reads the region through the texel-buffer view. -/
theorem c4_compute_to_fragment_barrier (L : Layout) (i : Nat) :
    (recordedCommands L i)[4]? = some (.dispatch 1 1 1)
    ∧ (recordedCommands L i)[6]? =
        some (.pipelineBarrier .computeShader .fragmentShader (toUseInFrag L i))
    ∧ (recordedCommands L i)[7]? = some .beginRenderPass
    ∧ (toUseInFrag L i).buffer = .dispatch
    ∧ (toUseInFrag L i).offset = L.dispatchOffset i
    ∧ (toUseInFrag L i).size = L.dispatchAligned
    ∧ (recordedCommands L i).countP Cmd.isDispatchCmd = 1
    ∧ (recordedCommands L i).countP Cmd.isBeginRenderPassCmd = 1
    ∧ dispatchDataBufferView L i
        = ⟨.dispatch, L.dispatchOffset i, L.dispatchAligned⟩ :=
  ⟨rfl, rfl, rfl, rfl, rfl, rfl, rfl, rfl, rfl⟩

/-- C5: each of the four mutable buffers (camera, model, condition, scratch)
is created with one copy per swapchain image, and every per-frame reference
recorded for slot `i` — the descriptor buffer regions, the texel-buffer-view
region, the conditional-rendering begin offsets and the barrier
offsets/ranges — uses exactly slot `i`'s offset. -/
theorem c5_per_frame_copies_and_offsets (L : Layout) (N : Nat) (ci mi : Int)
    (i : Nat) :
    (initState L N ci mi).camera.numImages = N
    ∧ (initState L N ci mi).model.numImages = N
    ∧ (initState L N ci mi).conditional.numImages = N
    ∧ (initState L N ci mi).dispatch.numImages = N
    ∧ bufferInfos L i =
        [⟨.camera, L.cameraOffset i, L.cameraSize⟩,
         ⟨.model, L.modelOffset i, L.modelSize⟩,
         ⟨.dispatch, L.dispatchOffset i, L.dispatchSize⟩]
    ∧ dispatchDataBufferView L i
        = ⟨.dispatch, L.dispatchOffset i, L.dispatchAligned⟩
    ∧ (conditionalBegin1 L i).offset = L.conditionalOffset i
    ∧ (conditionalBegin2 L i).offset = L.conditionalOffset i
    ∧ (toUseInComp L i).offset = L.dispatchOffset i
    ∧ (toUseInComp L i).size = L.dispatchAligned
    ∧ (toUseInFrag L i).offset = L.dispatchOffset i
    ∧ (toUseInFrag L i).size = L.dispatchAligned :=
  ⟨rfl, rfl, rfl, rfl, rfl, rfl, rfl, rfl, rfl, rfl, rfl, rfl⟩

/-- C7: every draw and clear-attachments command in the recorded command
buffer of every frame slot lies inside a conditional-rendering region whose
begin info references the condition buffer; none is recorded outside such a
region. -/
theorem c7_all_draws_and_clears_gated (L : Layout) (i : Nat) :
    drawClearGated none (recordedCommands L i) = true := rfl


/-- C2: for every frame slot, the recorded command buffer contains two
rendering branches gated by the same condition-buffer region — the first
begun with flags 0 (clear to cyan, draw the cube with instance count 2) and
the second with the inverted-condition flag (clear to magenta, draw one
cube) — and for every value of the condition exactly one of the two branches
executes. -/
theorem c2_exactly_one_branch (L : Layout) (i : Nat) (c : Nat) (gpuOut : Int)
    (s0 : ExecState) (hc : s0.condMem (L.conditionalOffset i) = c)
    (he : s0.events = []) :
    (conditionalBegin1 L i).inverted = false
    ∧ conditionalBegin2 L i = { conditionalBegin1 L i with inverted := true }
    ∧ (c ≠ 0 → (execCmds gpuOut s0 (recordedCommands L i)).events
        = [.dispatchEv (L.dispatchOffset i), .clearEv cyanClear, .drawEv 2 gpuOut])
    ∧ (c = 0 → (execCmds gpuOut s0 (recordedCommands L i)).events
        = [.clearEv magentaClear, .drawEv 1 (s0.dispMem (L.dispatchOffset i))]) := by
  subst hc
  refine ⟨rfl, rfl, ?_, ?_⟩
  · intro hne
    exact exec_true L i gpuOut s0 hne he
  · intro heq
    exact (exec_false L i gpuOut s0 heq he).1

/-- C10: the compute dispatch is recorded inside a conditional-rendering
region begun with non-inverted flags over the same condition region as the
draw branches, so when the condition flag of a frame is 0 the dispatch is
skipped entirely (the scratch memory is left untouched) and the inverted
branch reads the host-written scratch value of 0. -/
theorem c10_dispatch_skipped_when_condition_zero (L : Layout) (i : Nat)
    (gpuOut : Int) (s0 : ExecState)
    (hc : s0.condMem (L.conditionalOffset i) = 0)
    (hd : s0.dispMem (L.dispatchOffset i) = 0)
    (he : s0.events = []) :
    (recordedCommands L i)[1]? = some (.beginConditional (conditionalBegin1 L i))
    ∧ (recordedCommands L i)[4]? = some (.dispatch 1 1 1)
    ∧ (recordedCommands L i)[5]? = some .endConditional
    ∧ (conditionalBegin1 L i).inverted = false
    ∧ (recordedCommands L i)[10]? = some (.beginConditional (conditionalBegin1 L i))
    ∧ (recordedCommands L i)[14]? = some (.beginConditional (conditionalBegin2 L i))
    ∧ (conditionalBegin2 L i).offset = (conditionalBegin1 L i).offset
    ∧ (conditionalBegin2 L i).buffer = (conditionalBegin1 L i).buffer
    ∧ (execCmds gpuOut s0 (recordedCommands L i)).dispMem = s0.dispMem
    ∧ (execCmds gpuOut s0 (recordedCommands L i)).events
        = [.clearEv magentaClear, .drawEv 1 0] := by
  obtain ⟨hev, hmem⟩ := exec_false L i gpuOut s0 hc he
  refine ⟨rfl, rfl, rfl, rfl, rfl, rfl, rfl, rfl, hmem, ?_⟩
  rw [hev, hd]

/-- C9: every `Update` call unconditionally resets the host-side scratch
value to 0, and `Render` then uploads it with a forced update, so whatever
value the compute shader wrote into slot `i`'s scratch region during a
previous frame is overwritten with 0 before slot `i`'s command buffer is
resubmitted (the submission sees scratch value 0). -/
theorem c9_scratch_reset_before_resubmit (rot : Int → Int) (s : AppState)
    (i : Nat) :
    (updateStep rot s).dispatch.hostData = 0
    ∧ ((renderStep i (updateStep rot s)).1).dispatch.gpu i = 0
    ∧ (renderStep i (updateStep rot s)).2.dispVal = 0 := by
  refine ⟨rfl, ?_, ?_⟩ <;>
    simp [renderStep, updateStep, updateBuffer_gpu_forced]

/-- C3: the per-slot command sequence is recorded exactly once per
frame-data slot (it is fixed at initialization and never re-recorded: after
any sequence of main-loop steps slot `i` still holds `recordedCommands L i`),
every logged submission resubmits exactly the recorded command buffer of its
slot, and a `Render` call changes only buffer contents (it preserves the
command buffers and the frame counter and submits slot `j`'s recorded
buffer). -/
theorem c3_recorded_once_and_resubmitted (L : Layout) (N : Nat) (ci mi : Int)
    (acts : List Action) (i : Nat) :
    (runSteps (initState L N ci mi, []) acts).1.commandBuffers i
      = recordedCommands L i
    ∧ (∀ sub ∈ (runSteps (initState L N ci mi, []) acts).2,
        sub.cmds = recordedCommands L sub.slot)
    ∧ (∀ s : AppState, ∀ j : Nat,
        ((renderStep j s).1).commandBuffers = s.commandBuffers
        ∧ ((renderStep j s).1).framesSinceLastNotify = s.framesSinceLastNotify
        ∧ (renderStep j s).2.slot = j
        ∧ (renderStep j s).2.cmds = s.commandBuffers j) := by
  have hinv : CmdBufInv L (runSteps (initState L N ci mi, []) acts) :=
    cmdBufInv_runSteps L _ acts ⟨fun _ => rfl, by simp⟩
  exact ⟨hinv.1 i, hinv.2, fun s j => ⟨rfl, rfl, rfl, rfl⟩⟩

/-- C6: on every `Render` call for frame index `i` from a reachable state,
the host uploads the camera, model, condition and scratch host data into
slot `i`'s device copies (the scratch copy via the forced update), leaves the
device copies of every other slot unchanged, and only then submits slot
`i`'s command buffer. -/
theorem c6_render_updates_only_slot_i (L : Layout) (N : Nat) (ci mi : Int)
    (acts : List Action) (i : Nat) :
    ((renderStep i (runSteps (initState L N ci mi, []) acts).1).1).camera.gpu i
        = (runSteps (initState L N ci mi, []) acts).1.camera.hostData
    ∧ ((renderStep i (runSteps (initState L N ci mi, []) acts).1).1).model.gpu i
        = (runSteps (initState L N ci mi, []) acts).1.model.hostData
    ∧ ((renderStep i (runSteps (initState L N ci mi, []) acts).1).1).conditional.gpu i
        = (runSteps (initState L N ci mi, []) acts).1.conditional.hostData
    ∧ ((renderStep i (runSteps (initState L N ci mi, []) acts).1).1).dispatch.gpu i
        = (runSteps (initState L N ci mi, []) acts).1.dispatch.hostData
    ∧ (∀ j : Nat, j ≠ i →
        ((renderStep i (runSteps (initState L N ci mi, []) acts).1).1).camera.gpu j
            = (runSteps (initState L N ci mi, []) acts).1.camera.gpu j
        ∧ ((renderStep i (runSteps (initState L N ci mi, []) acts).1).1).model.gpu j
            = (runSteps (initState L N ci mi, []) acts).1.model.gpu j
        ∧ ((renderStep i (runSteps (initState L N ci mi, []) acts).1).1).conditional.gpu j
            = (runSteps (initState L N ci mi, []) acts).1.conditional.gpu j
        ∧ ((renderStep i (runSteps (initState L N ci mi, []) acts).1).1).dispatch.gpu j
            = (runSteps (initState L N ci mi, []) acts).1.dispatch.gpu j)
    ∧ (renderStep i (runSteps (initState L N ci mi, []) acts).1).2.slot = i
    ∧ (renderStep i (runSteps (initState L N ci mi, []) acts).1).2.cmds
        = (runSteps (initState L N ci mi, []) acts).1.commandBuffers i
    ∧ (renderStep i (runSteps (initState L N ci mi, []) acts).1).2.dispVal
        = (runSteps (initState L N ci mi, []) acts).1.dispatch.hostData := by
  obtain ⟨hc, hm, hk⟩ :=
    hostInv_runSteps (initState L N ci mi, []) acts (hostInv_initState L N ci mi)
  refine ⟨updateBuffer_gpu_self _ _ hc, updateBuffer_gpu_self _ _ hm,
    updateBuffer_gpu_self _ _ hk, updateBuffer_gpu_forced _ _, ?_, rfl, rfl,
    updateBuffer_gpu_forced _ _⟩
  intro j hj
  exact ⟨updateBuffer_gpu_other _ i j false hj, updateBuffer_gpu_other _ i j false hj,
    updateBuffer_gpu_other _ i j false hj, updateBuffer_gpu_other _ i j true hj⟩


/-- C1, counterexample: the claim that the value consumed by
`vkCmdBeginConditionalRenderingEXT` is produced on the GPU by the compute
dispatch and not written by the host is false.  In a concrete run the begin
info references the conditional buffer; executing the recorded commands
leaves the conditional memory unchanged while the dispatch writes the
dispatch-buffer scratch region; and the host-side render step writes the
consumed condition region (from its initial 0 to the host-computed 1). -/
theorem c1_counterexample :
    (conditionalBegin1 exLayout 0).buffer = BufferId.conditional
    ∧ (recordedCommands exLayout 0)[1]?
        = some (.beginConditional (conditionalBegin1 exLayout 0))
    ∧ (execCmds 7 exExecTrue (recordedCommands exLayout 0)).condMem
        (exLayout.conditionalOffset 0) = 1
    ∧ exExecTrue.condMem (exLayout.conditionalOffset 0) = 1
    ∧ (execCmds 7 exExecTrue (recordedCommands exLayout 0)).dispMem
        (exLayout.dispatchOffset 0) = 7
    ∧ (initState exLayout 2 0 0).conditional.gpu 0 = 0
    ∧ (runSteps (initState exLayout 2 0 0, []) [.update id, .render 0]).1.conditional.gpu 0
        = 1 := by
  refine ⟨rfl, rfl, by decide, rfl, by decide, rfl, by decide⟩

/-- C1, amended: the GPU-side boolean condition gating the cubes'
visibility is computed by the host in `Update` and uploaded by `Render` into
the condition-buffer region that `vkCmdBeginConditionalRenderingEXT`
consumes; the compute dispatch instead produces the scratch (dispatch-data)
value read by the fragment shader.  Concretely: every conditional-rendering
begin in slot `i`'s commands references the conditional buffer at slot `i`'s
offset, GPU execution of the recorded commands never writes the conditional
memory, `Render` uploads the host condition into slot `i`'s region, `Update`
computes the condition as `(frames % 120) < 60`, and the compute descriptor
set points the dispatch at the dispatch buffer. -/
theorem c1_condition_host_produced (L : Layout) (i N : Nat) (ci mi : Int)
    (acts : List Action) (rot : Int → Int) (s : AppState) :
    (∀ info : CondBeginInfo, Cmd.beginConditional info ∈ recordedCommands L i →
        info.buffer = BufferId.conditional ∧ info.offset = L.conditionalOffset i)
    ∧ (∀ gpuOut : Int, ∀ s0 : ExecState,
        (execCmds gpuOut s0 (recordedCommands L i)).condMem = s0.condMem)
    ∧ ((renderStep i (runSteps (initState L N ci mi, []) acts).1).1.conditional.gpu i
        = (runSteps (initState L N ci mi, []) acts).1.conditional.hostData)
    ∧ ((updateStep rot s).conditional.hostData
        = if ((s.framesSinceLastNotify + 1) % 2 ^ 32) % 120 < 60 then 1 else 0)
    ∧ (computeDescriptorRefs L i
        = [⟨.dispatch, L.dispatchOffset i, L.dispatchSize⟩]) := by
  refine ⟨?_, ?_, ?_, rfl, rfl⟩
  · intro info h
    simp [recordedCommands] at h
    rcases h with h | h <;> subst h <;> exact ⟨rfl, rfl⟩
  · intro gpuOut s0
    exact execCmds_condMem gpuOut _ s0
  · obtain ⟨hc, hm, hk⟩ :=
      hostInv_runSteps (initState L N ci mi, []) acts (hostInv_initState L N ci mi)
    exact updateBuffer_gpu_self _ _ hk

/-- C8, counterexample: the claim that after the n-th `Update` call the
condition flag equals 1 exactly when `n % 120 < 60` fails at
`n = 2^32 + 50`: the 32-bit frame counter has wrapped, the code computes the
flag as 1 (since 50 % 120 < 60) while the claim's formula demands 0 (since
(2^32 + 50) % 120 = 66 is not < 60). -/
theorem c8_counterexample :
    (applyUpdates (fun _ => id) (2 ^ 32 + 50)
        (initState exLayout 1 0 0)).conditional.hostData = 1
    ∧ ¬ ((2 ^ 32 + 50) % 120 < 60) := by
  constructor
  · have h := applyUpdates_condition (fun _ => id) (2 ^ 32 + 49)
      (initState exLayout 1 0 0) rfl
    rw [show (2 : Nat) ^ 32 + 50 = (2 ^ 32 + 49) + 1 by norm_num]
    rw [h]
    norm_num
  · norm_num

/-- C8, amended: starting from an initial condition value of 1 and a frame
counter of 0, after the n-th `Update` call the condition flag written for the
next submitted frame equals 1 exactly when `(n % 2^32) % 120 < 60` (the
frame counter is a 32-bit unsigned integer and wraps); for every `n < 2^32`
this is `n % 120 < 60`, so the gated branch flips every 60 frames with
period 120. -/
theorem c8_condition_period_with_wraparound (L : Layout) (N : Nat)
    (ci mi : Int) (rots : Nat → Int → Int) (n : Nat) :
    (applyUpdates rots n (initState L N ci mi)).conditional.hostData = 1
      ↔ (n % 2 ^ 32) % 120 < 60 := by
  cases n with
  | zero => simp [applyUpdates, initState, mkBufferFrameData]
  | succ m =>
      rw [applyUpdates_condition rots m _ rfl]
      split <;> simp_all


/-- Witness for C1 -/
theorem c1_condition_host_produced_witness :
    (execCmds 7 exExecTrue (recordedCommands exLayout 1)).condMem
      = exExecTrue.condMem :=
  (c1_condition_host_produced exLayout 1 2 0 0 [] id
    (initState exLayout 2 0 0)).2.1 7 exExecTrue

/-- Witness for C2 -/
theorem c2_exactly_one_branch_witness :
    (execCmds 7 exExecTrue (recordedCommands exLayout 0)).events
      = [.dispatchEv (exLayout.dispatchOffset 0), .clearEv cyanClear,
         .drawEv 2 7] :=
  (c2_exactly_one_branch exLayout 0 1 7 exExecTrue rfl rfl).2.2.1 (by decide)

/-- Witness for C3 -/
theorem c3_recorded_once_and_resubmitted_witness :
    (runSteps (initState exLayout 2 0 0, []) [Action.render 0]).1.commandBuffers 0
      = recordedCommands exLayout 0 :=
  (c3_recorded_once_and_resubmitted exLayout 2 0 0 [Action.render 0] 0).1

/-- Witness for C6 -/
theorem c6_render_updates_only_slot_i_witness :
    ((renderStep 0 (runSteps (initState exLayout 2 3 4, []) []).1).1).conditional.gpu 0
      = (runSteps (initState exLayout 2 3 4, []) []).1.conditional.hostData :=
  (c6_render_updates_only_slot_i exLayout 2 3 4 [] 0).2.2.1

/-- Witness for C10 -/
theorem c10_dispatch_skipped_witness :
    (execCmds 7 exExecFalse (recordedCommands exLayout 0)).events
      = [.clearEv magentaClear, .drawEv 1 0] :=
  (c10_dispatch_skipped_when_condition_zero exLayout 0 7 exExecFalse rfl rfl
    rfl).2.2.2.2.2.2.2.2.2


end CondRendering
